import Mathlib

/-!
Shallow embedding of the kpack-cli command-execution core:
the `CommandHelper` (execution modes, output routing, typed object
printing backed by a type-to-GVK registry) and the cluster-builder
`patch` command.  Go structs become Lean structures, Go methods become
functions, and the observable effects of a call (stream writes,
registry lookups, identity writes, remote calls) are recorded in
explicit trace structures so that frame and routing properties can be
stated about them.
-/

namespace KpackCli

/-- A Kubernetes group/version/kind identity triple
(`schema.GroupVersionKind`). -/
structure GroupVersionKind where
  group : String
  version : String
  kind : String
deriving DecidableEq, Repr

/-- The empty identity triple, as carried by an object decoded through a
generic unstructured path. -/
def GroupVersionKind.empty : GroupVersionKind := ⟨"", "", ""⟩

/-- The runtime type of an object, standing for Go's `reflect.Type` of the
concrete pointer type.  The seven named constructors are the types that
appear in `getTypeToGVKLookup`; `other` stands for any type outside the
table. -/
inductive ObjType where
  | secret
  | serviceAccount
  | image
  | builder
  | clusterStack
  | clusterStore
  | clusterBuilder
  | other (name : String)
deriving DecidableEq, Repr

/-- The Go type string produced by `reflect.TypeOf` for each known type,
used in the unknown-type error message. -/
def ObjType.typeName : ObjType → String
  | .secret => "*v1.Secret"
  | .serviceAccount => "*v1.ServiceAccount"
  | .image => "*v1alpha1.Image"
  | .builder => "*v1alpha1.Builder"
  | .clusterStack => "*v1alpha1.ClusterStack"
  | .clusterStore => "*v1alpha1.ClusterStore"
  | .clusterBuilder => "*v1alpha1.ClusterBuilder"
  | .other name => name

/-- A `runtime.Object` as far as this core inspects it: its runtime type
and its (mutable, possibly empty) group/version/kind identity. -/
structure RObject where
  typ : ObjType
  gvk : GroupVersionKind
deriving DecidableEq, Repr

/-- The core group (`v1.GroupName` in `k8s.io/api/core/v1`). -/
def v1GroupName : String := ""

/-- The kpack build API group (`build.GroupName` in the external kpack
dependency). -/
def buildGroupName : String := "kpack.io"

/-- `getTypeToGVKLookup`: the fixed type-to-GVK registry, one entry per
resource type the CLI knows about. -/
def getTypeToGVKLookup : ObjType → Option GroupVersionKind
  | .secret => some ⟨v1GroupName, "v1", "Secret"⟩
  | .serviceAccount => some ⟨v1GroupName, "v1", "ServiceAccount"⟩
  | .image => some ⟨buildGroupName, "v1alpha1", "Image"⟩
  | .builder => some ⟨buildGroupName, "v1alpha1", "Builder"⟩
  | .clusterStack => some ⟨buildGroupName, "v1alpha1", "ClusterStack"⟩
  | .clusterStore => some ⟨buildGroupName, "v1alpha1", "ClusterStore"⟩
  | .clusterBuilder => some ⟨buildGroupName, "v1alpha1", "ClusterBuilder"⟩
  | .other _ => none

/-- An `io.Writer` destination as the helper can route to it: the
command's primary output stream, its error stream, or `ioutil.Discard`. -/
inductive Writer where
  | outW
  | errW
  | discard
deriving DecidableEq, Repr

/-- `CommandHelper`: execution-mode booleans, the two streams, the object
printer (modelled by its error result on a given object) and the
type-to-GVK registry.  `output` is the boolean `len(output) > 0` computed
by `NewCommandHelper`. -/
structure CommandHelper where
  dryRun : Bool
  output : Bool
  wait : Bool
  outWriter : Writer
  errWriter : Writer
  objPrinter : RObject → Option String
  typeToGVK : ObjType → Option GroupVersionKind

/-- `CommandHelper.IsDryRun`. -/
def CommandHelper.IsDryRun (ch : CommandHelper) : Bool :=
  ch.dryRun

/-- `CommandHelper.ShouldWait`: `ch.wait && !ch.dryRun && !ch.output`. -/
def CommandHelper.ShouldWait (ch : CommandHelper) : Bool :=
  ch.wait && !ch.dryRun && !ch.output

/-- `CommandHelper.OutOrErrWriter`: the error stream when output mode is
active, the primary stream otherwise. -/
def CommandHelper.OutOrErrWriter (ch : CommandHelper) : Writer :=
  if ch.output then ch.errWriter else ch.outWriter

/-- `CommandHelper.OutOrDiscardWriter`: `ioutil.Discard` when output mode
is active, the primary stream otherwise. -/
def CommandHelper.OutOrDiscardWriter (ch : CommandHelper) : Writer :=
  if ch.output then Writer.discard else ch.outWriter

/-- `CommandHelper.Writer` delegates to `OutOrErrWriter`. -/
def CommandHelper.writerMethod (ch : CommandHelper) : Writer :=
  ch.OutOrErrWriter

/-- The error message built by `errors.Errorf("failed to output. unknown
type %q", reflect.TypeOf(obj))`. -/
def unknownTypeMsg (t : ObjType) : String :=
  "failed to output. unknown type \"" ++ t.typeName ++ "\""

/-- Observable outcome of one `CommandHelper.PrintObj` call: the error
result (`none` is a nil error), the object as it stands after the call,
whether the registry was consulted, every `SetGroupVersionKind` write in
order, and every object handed to the printer together with the stream it
was printed to. -/
structure PrintObjOut where
  err : Option String
  obj : RObject
  lookup : Bool
  gvkWrites : List GroupVersionKind
  printed : List (RObject × Writer)
deriving Repr

/-- `CommandHelper.PrintObj`: no-op unless output mode is active; reads
the object's identity, consults the registry when version or kind is
empty (erroring when the type is unknown, stamping the registry identity
otherwise), prints the object to the primary stream, and re-stamps the
identity read at entry. -/
def CommandHelper.PrintObj (ch : CommandHelper) (obj : RObject) : PrintObjOut :=
  if !ch.output then
    { err := none, obj := obj, lookup := false, gvkWrites := [], printed := [] }
  else
    let oGVK := obj.gvk
    if oGVK.version = "" ∨ oGVK.kind = "" then
      match ch.typeToGVK obj.typ with
      | none =>
          { err := some (unknownTypeMsg obj.typ), obj := obj,
            lookup := true, gvkWrites := [], printed := [] }
      | some nGVK =>
          let obj1 : RObject := { obj with gvk := nGVK }
          let perr := ch.objPrinter obj1
          let obj2 : RObject := { obj1 with gvk := oGVK }
          { err := perr, obj := obj2, lookup := true,
            gvkWrites := [nGVK, oGVK], printed := [(obj1, ch.outWriter)] }
    else
      let perr := ch.objPrinter obj
      let obj2 : RObject := { obj with gvk := oGVK }
      { err := perr, obj := obj2, lookup := false,
        gvkWrites := [oGVK], printed := [(obj, ch.outWriter)] }

/-- One formatted line written by `printDryRun`-backed methods: the
destination stream and the exact text written (including the trailing
newline).  The `format`/`args` pair is abstracted by the string
`fmt.Sprintf` produces from it; `strings.Builder.WriteString` never
fails, so the Go error plumbing around it collapses away. -/
structure LineOut where
  writer : Writer
  text : String
deriving DecidableEq, Repr

/-- `CommandHelper.printDryRun`: resets the shared builder, appends the
formatted string, appends `" (dry run)"` when dry-run is active, appends
a newline, and writes the result to the given stream. -/
def CommandHelper.printDryRun (ch : CommandHelper) (w : Writer) (s : String) : LineOut :=
  { writer := w,
    text := s ++ (if ch.dryRun then " (dry run)" else "") ++ "\n" }

/-- `CommandHelper.PrintResult`: `printDryRun` on the out-or-discard
stream. -/
def CommandHelper.PrintResult (ch : CommandHelper) (s : String) : LineOut :=
  ch.printDryRun ch.OutOrDiscardWriter s

/-- `CommandHelper.PrintStatus`: `printDryRun` on the out-or-err
stream. -/
def CommandHelper.PrintStatus (ch : CommandHelper) (s : String) : LineOut :=
  ch.printDryRun ch.OutOrErrWriter s

/-- `CommandHelper.Printlnf`: unconditioned `Fprintf` of `format+"\n"` to
the out-or-err stream, with no dry-run suffix. -/
def CommandHelper.Printlnf (ch : CommandHelper) (s : String) : LineOut :=
  { writer := ch.OutOrErrWriter, text := s ++ "\n" }

/-- The slice of a cobra `FlagSet` that flag resolution inspects:
whether `Lookup(name)` finds a defined flag, whether the user explicitly
set it (`Changed(name)`), and the typed getters with their error
results. -/
structure FlagSet where
  defined : String → Bool
  changed : String → Bool
  getBool : String → Except String Bool
  getString : String → Except String String

/-- `getBoolFlag`: `false` without error when the flag is undefined or
was not explicitly set; otherwise the typed getter's result. -/
def getBoolFlag (name : String) (fs : FlagSet) : Except String Bool :=
  if !fs.defined name then
    Except.ok false
  else if !fs.changed name then
    Except.ok false
  else
    fs.getBool name

/-- `getStringFlag`: `""` without error when the flag is undefined or
was not explicitly set; otherwise the typed getter's result. -/
def getStringFlag (name : String) (fs : FlagSet) : Except String String :=
  if !fs.defined name then
    Except.ok ""
  else if !fs.changed name then
    Except.ok ""
  else
    fs.getString name

/-- The slice of a cobra `Command` that `NewCommandHelper` reads: its
flag set and its two streams. -/
structure Command where
  flags : FlagSet
  outOrStdout : Writer
  errOrStderr : Writer

/-- `NewCommandHelper`: resolves `dry-run`, `output` and `wait`, treats a
non-empty output format as output mode, builds the object printer for
that format via the external `k8s.NewObjectPrinter` (passed in as
`newObjectPrinter`, since its code lives outside this file set), and
assembles the helper. -/
def NewCommandHelper
    (newObjectPrinter : String → Except String (RObject → Option String))
    (cmd : Command) : Except String CommandHelper := do
  let dryRun ← getBoolFlag "dry-run" cmd.flags
  let output ← getStringFlag "output" cmd.flags
  let wait ← getBoolFlag "wait" cmd.flags
  let outputResource := output.length > 0
  let objPrinter ←
    if outputResource then
      newObjectPrinter output
    else
      pure (fun _ => none)
  Except.ok
    { dryRun := dryRun
      output := outputResource
      wait := wait
      outWriter := cmd.outOrStdout
      errWriter := cmd.errOrStderr
      objPrinter := objPrinter
      typeToGVK := getTypeToGVKLookup }

/-- A buildpack reference inside an order entry (external kpack type,
carried opaquely by the patch command). -/
structure BuildpackRef where
  id : String
  version : String
deriving DecidableEq, Repr

/-- One entry of a builder's buildpack order (external kpack type,
carried opaquely by the patch command). -/
structure OrderEntry where
  group : List BuildpackRef
deriving DecidableEq, Repr

/-- A `corev1.ObjectReference` as the builder spec uses it: the fields
the patch command may touch (`name`) plus representatives of the fields
it must not. -/
structure ObjectRef where
  kind : String
  nspace : String
  name : String
deriving DecidableEq, Repr

/-- `ClusterBuilderSpec` (external kpack type): the three fields the
patch command may touch (`stack`, `store`, `order`) plus a
representative unrelated spec field (`tag`). -/
structure ClusterBuilderSpec where
  tag : String
  stack : ObjectRef
  store : ObjectRef
  order : List OrderEntry
deriving DecidableEq, Repr

/-- `BuilderStatus` (external kpack type): server-owned observed state,
opaque to the patch command; two representative fields. -/
structure ClusterBuilderStatus where
  latestImage : String
  observedGeneration : Int
deriving DecidableEq, Repr

/-- A `ClusterBuilder` resource: metadata name, user-editable spec and
server-owned status. -/
structure ClusterBuilder where
  name : String
  spec : ClusterBuilderSpec
  status : ClusterBuilderStatus
deriving DecidableEq, Repr

/-- Lines 42-59 of the patch command: deep-copy the observed builder and
overwrite `Spec.Stack.Name`, `Spec.Store.Name` and `Spec.Order` for each
flag that is non-empty, reading the order file through the external
`builder.ReadOrder` (passed in as `readOrder`, since its code lives
outside this file set). -/
def mkDesired (readOrder : String → Except String (List OrderEntry))
    (stack store order : String) (ccb : ClusterBuilder) :
    Except String ClusterBuilder :=
  let patchedCcb := ccb
  let patchedCcb :=
    if stack ≠ "" then
      { patchedCcb with
        spec := { patchedCcb.spec with
          stack := { patchedCcb.spec.stack with name := stack } } }
    else patchedCcb
  let patchedCcb :=
    if store ≠ "" then
      { patchedCcb with
        spec := { patchedCcb.spec with
          store := { patchedCcb.spec.store with name := store } } }
    else patchedCcb
  if order ≠ "" then
    match readOrder order with
    | Except.error e => Except.error e
    | Except.ok orderEntries =>
        Except.ok { patchedCcb with
          spec := { patchedCcb.spec with order := orderEntries } }
  else
    Except.ok patchedCcb

/-- External collaborators of the patch command's run function: the
remote `Get`, the order-file loader `builder.ReadOrder`, the diff
`k8s.CreatePatch` (its `[]byte` result modelled as the serialized patch
string), and the remote `Patch` call's result. -/
structure PatchDeps where
  getClusterBuilder : String → Except String ClusterBuilder
  readOrder : String → Except String (List OrderEntry)
  createPatch : ClusterBuilder → ClusterBuilder → Except String String
  patchClusterBuilder : String → String → Except String ClusterBuilder

/-- Observable outcome of one run of the patch command: the returned
error (`none` is a nil error, i.e. exit zero), every remote `Patch`
call as a `(name, payload)` pair, and every line written to stdout. -/
structure PatchOutcome where
  err : Option String
  patchCalls : List (String × String)
  outLines : List String
deriving DecidableEq, Repr

/-- The `RunE` of the cluster-builder patch command: get the observed
builder, build the desired deep copy with `mkDesired`, diff them; when
the patch is empty print `nothing to patch` and return nil, otherwise
submit the patch and print `"<name>" patched`.  Writes to stdout are
modelled as always succeeding, as `Fprintln` on a healthy stream does. -/
def patchRunE (deps : PatchDeps) (stack store order : String)
    (arg0 : String) : PatchOutcome :=
  match deps.getClusterBuilder arg0 with
  | Except.error e => { err := some e, patchCalls := [], outLines := [] }
  | Except.ok ccb =>
    match mkDesired deps.readOrder stack store order ccb with
    | Except.error e => { err := some e, patchCalls := [], outLines := [] }
    | Except.ok patchedCcb =>
      match deps.createPatch ccb patchedCcb with
      | Except.error e => { err := some e, patchCalls := [], outLines := [] }
      | Except.ok patch =>
        if patch.length = 0 then
          { err := none, patchCalls := [], outLines := ["nothing to patch"] }
        else
          match deps.patchClusterBuilder arg0 patch with
          | Except.error e =>
              { err := some e, patchCalls := [(arg0, patch)], outLines := [] }
          | Except.ok _ =>
              { err := none, patchCalls := [(arg0, patch)],
                outLines := ["\"" ++ ccb.name ++ "\" patched"] }

/-! Concrete helpers and flag sets used by witnesses. -/

/-- A helper in output mode, with narrative modes off. -/
def chOutEx : CommandHelper :=
  { dryRun := false, output := true, wait := false,
    outWriter := Writer.outW, errWriter := Writer.errW,
    objPrinter := fun _ => none, typeToGVK := getTypeToGVKLookup }

/-- A helper in dry-run mode, with output mode off. -/
def chDryEx : CommandHelper :=
  { dryRun := true, output := false, wait := true,
    outWriter := Writer.outW, errWriter := Writer.errW,
    objPrinter := fun _ => none, typeToGVK := getTypeToGVKLookup }

/-- A helper with every mode off. -/
def chPlainEx : CommandHelper :=
  { dryRun := false, output := false, wait := false,
    outWriter := Writer.outW, errWriter := Writer.errW,
    objPrinter := fun _ => none, typeToGVK := getTypeToGVKLookup }

/-- A flag set on which no flag is defined and no getter succeeds. -/
def fsEmptyEx : FlagSet :=
  { defined := fun _ => false, changed := fun _ => false,
    getBool := fun _ => Except.error "undefined flag",
    getString := fun _ => Except.error "undefined flag" }

/-- Two formatted strings that differ exactly by the dry-run suffix have
different lengths, hence are different. -/
theorem line_ne_dry_run_line (s : String) :
    ¬ s ++ "" ++ "\n" = s ++ " (dry run)" ++ "\n" := by
  intro h
  have hlen := congrArg String.length h
  simp only [String.length_append] at hlen
  have h1 : "".length = 0 := rfl
  have h2 : "\n".length = 1 := rfl
  have h3 : " (dry run)".length = 10 := rfl
  omega

/-- C1: `ShouldWait` is true iff `wait` is true, `dryRun` is false and no
output format was requested, over all eight boolean combinations of the
three mode fields. -/
theorem shouldWait_iff_wait_not_dryRun_not_output (ch : CommandHelper) :
    ch.ShouldWait = (ch.wait && !ch.dryRun && !ch.output) ∧
    (ch.ShouldWait = true ↔
      ch.wait = true ∧ ch.dryRun = false ∧ ch.output = false) := by
  refine ⟨rfl, ?_⟩
  simp [CommandHelper.ShouldWait, Bool.and_eq_true, Bool.not_eq_true',
    and_assoc]

/-- Witness for C1 at a concrete helper with dry-run and wait set. -/
theorem shouldWait_iff_witness :
    chDryEx.ShouldWait =
      (chDryEx.wait && !chDryEx.dryRun && !chDryEx.output) :=
  (shouldWait_iff_wait_not_dryRun_not_output chDryEx).1

/-- C3: `PrintResult` and `PrintStatus` append the literal suffix
`" (dry run)"` to the formatted line iff `dryRun` is true, and never
otherwise. -/
theorem print_dry_run_suffix_iff (ch : CommandHelper) (s : String) :
    ((ch.PrintResult s).text = s ++ " (dry run)" ++ "\n" ↔
      ch.dryRun = true) ∧
    ((ch.PrintStatus s).text = s ++ " (dry run)" ++ "\n" ↔
      ch.dryRun = true) ∧
    (ch.dryRun = false →
      (ch.PrintResult s).text = s ++ "\n" ∧
      (ch.PrintStatus s).text = s ++ "\n") := by
  cases h : ch.dryRun with
  | true =>
      simp [CommandHelper.PrintResult, CommandHelper.PrintStatus,
        CommandHelper.printDryRun, h]
  | false =>
      refine ⟨?_, ?_, ?_⟩
      · simp only [CommandHelper.PrintResult, CommandHelper.printDryRun, h,
          if_false]
        exact iff_of_false (line_ne_dry_run_line s) (by simp)
      · simp only [CommandHelper.PrintStatus, CommandHelper.printDryRun, h,
          if_false]
        exact iff_of_false (line_ne_dry_run_line s) (by simp)
      · intro _
        constructor <;>
          simp [CommandHelper.PrintResult, CommandHelper.PrintStatus,
            CommandHelper.printDryRun, h]

/-- Witness for C3 at a concrete helper with dry-run off. -/
theorem print_dry_run_suffix_iff_witness :
    (chPlainEx.PrintResult "created").text = "created" ++ "\n" ∧
    (chPlainEx.PrintStatus "created").text = "created" ++ "\n" :=
  (print_dry_run_suffix_iff chPlainEx "created").2.2 rfl

/-- C7: when output mode is active the out-or-err stream (used by
`PrintStatus` and `Printlnf`) is the error stream and the out-or-discard
stream (used by `PrintResult`) is the discard writer; when output mode
is off both streams are the primary output stream. -/
theorem stream_routing (ch : CommandHelper) (s : String) :
    (ch.output = true →
      ch.OutOrErrWriter = ch.errWriter ∧
      ch.OutOrDiscardWriter = Writer.discard) ∧
    (ch.output = false →
      ch.OutOrErrWriter = ch.outWriter ∧
      ch.OutOrDiscardWriter = ch.outWriter) ∧
    (ch.PrintStatus s).writer = ch.OutOrErrWriter ∧
    (ch.Printlnf s).writer = ch.OutOrErrWriter ∧
    (ch.PrintResult s).writer = ch.OutOrDiscardWriter := by
  cases h : ch.output <;>
    simp [CommandHelper.OutOrErrWriter, CommandHelper.OutOrDiscardWriter,
      CommandHelper.PrintStatus, CommandHelper.Printlnf,
      CommandHelper.PrintResult, CommandHelper.printDryRun, h]

/-- Witness for C7 at a concrete helper in output mode. -/
theorem stream_routing_witness :
    (chOutEx.OutOrErrWriter = chOutEx.errWriter ∧
      chOutEx.OutOrDiscardWriter = Writer.discard) ∧
    (chOutEx.PrintStatus "done").writer = chOutEx.OutOrErrWriter :=
  ⟨(stream_routing chOutEx "done").1 rfl,
    (stream_routing chOutEx "done").2.2.1⟩

/-- C8: flag resolution returns the zero value without error when the
flag is undefined or was not explicitly set by the user, for any flag
name (in particular `dry-run`, `output` and `wait`). -/
theorem flag_resolution_permissive (fs : FlagSet) (name : String)
    (h : fs.defined name = false ∨ fs.changed name = false) :
    getBoolFlag name fs = Except.ok false ∧
    getStringFlag name fs = Except.ok "" := by
  by_cases hd : fs.defined name <;>
    rcases h with h | h <;>
      simp [getBoolFlag, getStringFlag, h, hd] at *

/-- Witness for C8 on a flag set that defines no flag. -/
theorem flag_resolution_permissive_witness :
    getBoolFlag "dry-run" fsEmptyEx = Except.ok false ∧
    getStringFlag "dry-run" fsEmptyEx = Except.ok "" :=
  flag_resolution_permissive fsEmptyEx "dry-run" (Or.inl rfl)

/-- An object whose identity triple is fully set. -/
def objFullEx : RObject :=
  { typ := ObjType.secret, gvk := ⟨"example.com", "v1", "Widget"⟩ }

/-- An object with empty identity whose runtime type has no registry
entry. -/
def objUnknownEx : RObject :=
  { typ := ObjType.other "*v1.Pod", gvk := GroupVersionKind.empty }

/-- An object with empty group but non-empty version and kind. -/
def objCoreEx : RObject :=
  { typ := ObjType.secret, gvk := ⟨"", "v1", "Secret"⟩ }

/-- C5: in output mode, an object with empty identity and no registry
entry makes `PrintObj` return the unknown-type error, print nothing,
write no identity, and leave the object unchanged. -/
theorem printObj_unknown_type (ch : CommandHelper) (obj : RObject)
    (hout : ch.output = true) (hgvk : obj.gvk = GroupVersionKind.empty)
    (hreg : ch.typeToGVK obj.typ = none) :
    (ch.PrintObj obj).err = some (unknownTypeMsg obj.typ) ∧
    (ch.PrintObj obj).printed = [] ∧
    (ch.PrintObj obj).obj = obj ∧
    (ch.PrintObj obj).gvkWrites = [] := by
  simp [CommandHelper.PrintObj, hout, hgvk, hreg, GroupVersionKind.empty]

/-- Witness for C5 at a concrete helper and unregistered object. -/
theorem printObj_unknown_type_witness :
    (chOutEx.PrintObj objUnknownEx).err =
      some (unknownTypeMsg objUnknownEx.typ) ∧
    (chOutEx.PrintObj objUnknownEx).printed = [] ∧
    (chOutEx.PrintObj objUnknownEx).obj = objUnknownEx ∧
    (chOutEx.PrintObj objUnknownEx).gvkWrites = [] :=
  printObj_unknown_type chOutEx objUnknownEx rfl rfl rfl

/-- C9: in output mode, `PrintObj` performs a registry lookup exactly
when the object's version or kind is empty; an object with empty group
but non-empty version and kind is printed as-is, with no lookup and no
identity change. -/
theorem printObj_lookup_iff (ch : CommandHelper) (obj : RObject)
    (hout : ch.output = true) :
    ((ch.PrintObj obj).lookup = true ↔
      (obj.gvk.version = "" ∨ obj.gvk.kind = "")) ∧
    (obj.gvk.group = "" → obj.gvk.version ≠ "" → obj.gvk.kind ≠ "" →
      (ch.PrintObj obj).lookup = false ∧
      (ch.PrintObj obj).obj = obj ∧
      (ch.PrintObj obj).printed = [(obj, ch.outWriter)] ∧
      (ch.PrintObj obj).err = ch.objPrinter obj) := by
  by_cases hc : obj.gvk.version = "" ∨ obj.gvk.kind = ""
  · constructor
    · cases hreg : ch.typeToGVK obj.typ <;>
        simp [CommandHelper.PrintObj, hout, hc, hreg]
    · intro _ h2 h3
      exact absurd hc (by simp [h2, h3])
  · constructor
    · simp [CommandHelper.PrintObj, hout, hc]
    · intro _ _ _
      simp [CommandHelper.PrintObj, hout, hc]

/-- Witness for C9 at a concrete core-group object. -/
theorem printObj_lookup_iff_witness :
    (chOutEx.PrintObj objCoreEx).lookup = false ∧
    (chOutEx.PrintObj objCoreEx).obj = objCoreEx ∧
    (chOutEx.PrintObj objCoreEx).printed = [(objCoreEx, chOutEx.outWriter)] ∧
    (chOutEx.PrintObj objCoreEx).err = chOutEx.objPrinter objCoreEx :=
  (printObj_lookup_iff chOutEx objCoreEx rfl).2 rfl (by decide) (by decide)

/-- C4 counterexample: on a fully-set identity in output mode no lookup
happens, but the identity is still written (re-stamped with its original
value) after serialization, so "the identity is never written" fails. -/
theorem printObj_identity_written_counterexample :
    objFullEx.gvk.group ≠ "" ∧ objFullEx.gvk.version ≠ "" ∧
    objFullEx.gvk.kind ≠ "" ∧ chOutEx.output = true ∧
    (chOutEx.PrintObj objFullEx).lookup = false ∧
    (chOutEx.PrintObj objFullEx).gvkWrites = [objFullEx.gvk] ∧
    (chOutEx.PrintObj objFullEx).gvkWrites ≠ [] := by
  refine ⟨by decide, by decide, by decide, rfl, rfl, rfl, by decide⟩

/-- C4 as amended: the object's identity after `PrintObj` always equals
its identity before; on a fully-set identity no registry lookup happens
and every identity write re-stamps the original value; whenever any
identity was stamped, the last write restores the original. -/
theorem printObj_identity_roundtrip (ch : CommandHelper) (obj : RObject) :
    (ch.PrintObj obj).obj.gvk = obj.gvk ∧
    (ch.PrintObj obj).obj.typ = obj.typ ∧
    (obj.gvk.version ≠ "" → obj.gvk.kind ≠ "" →
      (ch.PrintObj obj).lookup = false ∧
      ((ch.PrintObj obj).gvkWrites = [] ∨
        (ch.PrintObj obj).gvkWrites = [obj.gvk])) ∧
    ((ch.PrintObj obj).gvkWrites = [] ∨
      (ch.PrintObj obj).gvkWrites.getLast? = some obj.gvk) := by
  by_cases hout : ch.output = true
  · by_cases hc : obj.gvk.version = "" ∨ obj.gvk.kind = ""
    · cases hreg : ch.typeToGVK obj.typ with
      | none =>
          refine ⟨?_, ?_, ?_, ?_⟩ <;>
            simp [CommandHelper.PrintObj, hout, hc, hreg]
          intro h2
          exact hc.resolve_left h2
      | some nGVK =>
          refine ⟨?_, ?_, ?_, ?_⟩ <;>
            simp [CommandHelper.PrintObj, hout, hc, hreg]
          intro h2
          exact hc.resolve_left h2
    · refine ⟨?_, ?_, ?_, ?_⟩ <;>
        simp [CommandHelper.PrintObj, hout, hc]
  · have hout' : ch.output = false := by
      cases h : ch.output
      · rfl
      · exact absurd h hout
    refine ⟨?_, ?_, ?_, ?_⟩ <;>
      simp [CommandHelper.PrintObj, hout']

/-- Witness for the amended C4 at a concrete fully-set object. -/
theorem printObj_identity_roundtrip_witness :
    (chOutEx.PrintObj objFullEx).obj.gvk = objFullEx.gvk ∧
    (chOutEx.PrintObj objFullEx).lookup = false :=
  ⟨(printObj_identity_roundtrip chOutEx objFullEx).1,
    ((printObj_identity_roundtrip chOutEx objFullEx).2.2.1
      (by decide) (by decide)).1⟩

/-- A concrete observed cluster builder. -/
def ccbEx : ClusterBuilder :=
  { name := "my-builder",
    spec :=
      { tag := "registry.io/builder",
        stack := { kind := "ClusterStack", nspace := "", name := "base" },
        store := { kind := "ClusterStore", nspace := "", name := "default" },
        order := [{ group := [{ id := "paketo/java", version := "1.0" }] }] },
    status := { latestImage := "registry.io/builder@sha256:abc",
                observedGeneration := 3 } }

/-- An order-file loader returning one fixed entry for any path. -/
def readOrderEx : String → Except String (List OrderEntry) :=
  fun _ => Except.ok [{ group := [{ id := "paketo/go", version := "2.0" }] }]

/-- Collaborators for which the observed builder exists and the diff is
empty; the remote `Patch` would fail if it were ever reached. -/
def depsNoopEx : PatchDeps :=
  { getClusterBuilder := fun _ => Except.ok ccbEx,
    readOrder := readOrderEx,
    createPatch := fun _ _ => Except.ok "",
    patchClusterBuilder := fun _ _ => Except.error "unexpected remote call" }

/-- The desired builder produced from `ccbEx` by a stack-only patch. -/
def desiredStackEx : ClusterBuilder :=
  { ccbEx with
    spec := { ccbEx.spec with
      stack := { ccbEx.spec.stack with name := "new-stack" } } }

/-- C2: whenever the computed patch is empty, the patch command writes
exactly the line `nothing to patch`, performs no remote `Patch` call,
and returns a nil error. -/
theorem patch_empty_nothing_to_patch (deps : PatchDeps)
    (stack store order arg0 : String) (ccb desired : ClusterBuilder)
    (patch : String)
    (hget : deps.getClusterBuilder arg0 = Except.ok ccb)
    (hdes : mkDesired deps.readOrder stack store order ccb =
      Except.ok desired)
    (hcp : deps.createPatch ccb desired = Except.ok patch)
    (hlen : patch.length = 0) :
    patchRunE deps stack store order arg0 =
      { err := none, patchCalls := [], outLines := ["nothing to patch"] } := by
  simp [patchRunE, hget, hdes, hcp, hlen]

/-- Witness for C2: flagless invocation against `depsNoopEx`. -/
theorem patch_empty_nothing_to_patch_witness :
    patchRunE depsNoopEx "" "" "" "my-builder" =
      { err := none, patchCalls := [], outLines := ["nothing to patch"] } :=
  patch_empty_nothing_to_patch depsNoopEx "" "" "" "my-builder"
    ccbEx ccbEx "" rfl rfl rfl rfl

/-- C6: the desired builder agrees with the observed one on the name,
the whole status, the unrelated spec field, and every sub-field of the
stack and store references other than their names; each of the three
touchable fields keeps its observed value when its flag is empty, and is
overwritten only by a non-empty flag (the order from the loader's
result). -/
theorem mkDesired_frame (readOrder : String → Except String (List OrderEntry))
    (stack store order : String) (ccb desired : ClusterBuilder)
    (h : mkDesired readOrder stack store order ccb = Except.ok desired) :
    desired.name = ccb.name ∧
    desired.status = ccb.status ∧
    desired.spec.tag = ccb.spec.tag ∧
    desired.spec.stack.kind = ccb.spec.stack.kind ∧
    desired.spec.stack.nspace = ccb.spec.stack.nspace ∧
    desired.spec.store.kind = ccb.spec.store.kind ∧
    desired.spec.store.nspace = ccb.spec.store.nspace ∧
    (stack = "" → desired.spec.stack = ccb.spec.stack) ∧
    (store = "" → desired.spec.store = ccb.spec.store) ∧
    (order = "" → desired.spec.order = ccb.spec.order) ∧
    (stack ≠ "" → desired.spec.stack.name = stack) ∧
    (store ≠ "" → desired.spec.store.name = store) ∧
    (order ≠ "" → ∃ entries, readOrder order = Except.ok entries ∧
      desired.spec.order = entries) := by
  by_cases hs : stack = "" <;> by_cases ht : store = "" <;>
    by_cases ho : order = "" <;>
      simp only [mkDesired, hs, ht, ho, ne_eq, not_true_eq_false,
        not_false_eq_true, if_true, if_false, ite_true, ite_false] at h
  all_goals
    first
    | (injection h with h
       subst h
       simp [hs, ht, ho])
    | (cases hro : readOrder order <;> rw [hro] at h
       · exact absurd h (by simp)
       · injection h with h
         subst h
         simp [hs, ht, ho, hro])

/-- Witness for C6: stack-only invocation on `ccbEx`. -/
theorem mkDesired_frame_witness :
    desiredStackEx.status = ccbEx.status ∧
    desiredStackEx.spec.stack.name = "new-stack" ∧
    desiredStackEx.spec.store = ccbEx.spec.store ∧
    desiredStackEx.spec.order = ccbEx.spec.order := by
  obtain ⟨-, h2, -, -, -, -, -, -, h9, h10, h11, -, -⟩ :=
    mkDesired_frame readOrderEx "new-stack" "" "" ccbEx desiredStackEx rfl
  exact ⟨h2, h11 (by decide), h9 rfl, h10 rfl⟩

/-- C10: when all three flags are empty strings, the desired deep copy
is field-for-field identical to the observed builder. -/
theorem mkDesired_all_empty_is_identity
    (readOrder : String → Except String (List OrderEntry))
    (ccb : ClusterBuilder) :
    mkDesired readOrder "" "" "" ccb = Except.ok ccb := by
  simp [mkDesired]

/-- Witness for C10 at the concrete observed builder. -/
theorem mkDesired_all_empty_is_identity_witness :
    mkDesired readOrderEx "" "" "" ccbEx = Except.ok ccbEx :=
  mkDesired_all_empty_is_identity readOrderEx ccbEx

end KpackCli
